import Mathlib

/-!
Shallow embedding of the go-otel tracer package (src/otel/tracer/tracer.go).

The Go package wires an OTLP/gRPC export pipeline into the process-wide
OpenTelemetry state.  The embedding makes the two implicit effects of the Go
code explicit:

* the process-wide otel globals (`otel.SetTracerProvider`,
  `otel.SetTextMapPropagator`) become a `GlobalState` value threaded through
  `InitTracer` / `InitNoopTracer`;
* the mutation of the caller's `*Config` (the Go code writes
  `cfg.Creds = nil` through the pointer) becomes the final `Config` returned
  alongside the result.

External collaborators (`otlptrace.New`, `resource.New`,
`sdkTrace.TracerProvider.Shutdown`) may fail for reasons outside this
package; their failure behaviour is supplied by an `Env` of oracles, while
the data they are given (endpoint, security mode, headers, attributes) is
tracked exactly as the Go code builds it.  Go's `net/url.Parse` (standard
library) is modelled by `urlParse` below, covering the fields the tracer
reads (`Scheme`, `Host`) and the parser's error behaviour.
-/

/-- Model of `credentials.TransportCredentials` (grpc): opaque credential
material, distinguished only by identity. -/
structure TransportCredentials where
  id : Nat
deriving DecidableEq, Repr

/-- Model of `sdkTrace.Sampler`: a sampling policy, given by its description
and its sampling decision on (abstracted) span parameters. -/
structure Sampler where
  description : String
  shouldSample : Nat → Bool

/-- Model of `sdkTrace.AlwaysSample()`: the policy that samples every span. -/
def AlwaysSample : Sampler :=
  { description := "AlwaysOnSampler", shouldSample := fun _ => true }

/-- The package's `Config` struct.  Go pointer-valued optional fields
(`Creds *credentials.TransportCredentials`, `Sampler *sdkTrace.Sampler`)
become `Option`s; string fields default to Go's zero value. -/
structure Config where
  ExporterURL : String := ""
  SecretToken : String := ""
  ServiceName : String := ""
  ServiceVersion : String := ""
  DeploymentEnvironment : String := ""
  Creds : Option TransportCredentials := none
  Sampler : Option Sampler := none

/-- The transport-security mode handed to the OTLP gRPC client: either
`otlptracegrpc.WithTLSCredentials c` or `otlptracegrpc.WithInsecure()`. -/
inductive SecurityMode where
  | insecure
  | tls (c : TransportCredentials)
deriving DecidableEq, Repr

/-- The options the Go code passes to `otlptracegrpc.NewClient`: target
endpoint, security mode, and fixed request headers. -/
structure OTLPClient where
  endpoint : String
  security : SecurityMode
  headers : List (String × String)
deriving DecidableEq, Repr

/-- A resource descriptor: the list of identity attributes handed to
`resource.New` via `resource.WithAttributes`. -/
abbrev Resource := List (String × String)

/-- The SDK tracer provider built by `sdkTrace.NewTracerProvider`: sampler,
batched exporter (carrying its client options), and resource descriptor. -/
structure SDKTracerProvider where
  sampler : Sampler
  batcher : OTLPClient
  resource : Resource

/-- A value of the `trace.TracerProvider` interface: the SDK provider built
by this package, the no-op provider, or any other implementation already
installed in the global slot. -/
inductive TracerProvider where
  | sdk (tp : SDKTracerProvider)
  | noop
  | other (id : Nat)

/-- A value of the `propagation.TextMapPropagator` interface. -/
inductive TextMapPropagator where
  | traceContext
  | baggage
  | composite (ps : List TextMapPropagator)
  | other (id : Nat)

/-- The process-wide otel globals: the active tracer provider and the active
text-map propagator. -/
structure GlobalState where
  tracerProvider : TracerProvider
  textMapPropagator : TextMapPropagator

/-- A named tracer as returned by `provider.Tracer(name)` /
`otel.Tracer(name)`. -/
structure NamedTracer where
  provider : TracerProvider
  name : String

/-- The `otelTracer` struct: the handle returned to the caller.  Its Go
fields are interface-typed (nilable), hence `Option`. -/
structure otelTracer where
  tracer : Option NamedTracer
  tracerProvider : Option TracerProvider

/-- Failure oracles for the external collaborators: `none` means the call
succeeds, `some e` that it fails with message `e`.  The data each
collaborator receives is passed to its oracle. -/
structure Env where
  exporterErr : OTLPClient → Option String
  resourceErr : Resource → Option String
  sdkShutdown : SDKTracerProvider → Option String

/- ## Model of Go `net/url.Parse` (standard library collaborator)

`urlParse` follows the structure of `net/url`'s `Parse`/`parse` (with
`viaRequest = false`): control-character check, fragment and query
splitting, scheme extraction (`getScheme`), opaque early return for
rootless paths with a scheme, the relative-path colon check, authority and
host parsing (`parseAuthority`/`parseHost`, with port validation, host
character checks and percent-escape validation), and percent-escape
validation of path and fragment.  Only the `Scheme` and `Host` fields are
returned, since they are all `InitTracer` reads.  IPv6 zone-identifier
unescaping inside a bracketed host is simplified to the same host-character
and escape checks. -/

/-- The result of `url.Parse`, restricted to the fields the tracer reads. -/
structure GoURL where
  scheme : String
  host : String
deriving DecidableEq, Repr

/-- Go `stringContainsCTLByte`: any byte below 0x20 or equal to 0x7f.
(Checked per character; UTF-8 continuation bytes are never control bytes.) -/
def containsCTL (s : List Char) : Bool :=
  s.any fun c => c.toNat < 32 || c.toNat == 127

/-- Go `split(s, sep, cutc)`: split at the first occurrence of `sep`;
`cutc` drops the separator from the remainder.  If `sep` does not occur,
the remainder is empty. -/
def splitAtChar : List Char → Char → Bool → List Char × List Char
  | [], _, _ => ([], [])
  | c :: rest, sep, cutc =>
    if c == sep then ([], if cutc then rest else c :: rest)
    else
      let p := splitAtChar rest sep cutc
      (c :: p.1, p.2)

/-- Index of the last occurrence of `c` (Go `strings.LastIndex` on a single
character), as an `Option`. -/
def lastIndexOfCharAux (c : Char) : List Char → Nat → Option Nat → Option Nat
  | [], _, best => best
  | x :: rest, i, best =>
    lastIndexOfCharAux c rest (i + 1) (if x == c then some i else best)

/-- See `lastIndexOfCharAux`. -/
def lastIndexOfChar (s : List Char) (c : Char) : Option Nat :=
  lastIndexOfCharAux c s 0 none

/-- Go `getScheme`, accumulator form: scan for a scheme terminated by a
colon; a leading digit/`+`/`-`/`.` or any other character means the URL has
no scheme, a leading colon is the "missing protocol scheme" error. -/
def getSchemeAux (raw : List Char) : List Char → List Char → Except String (List Char × List Char)
  | _, [] => Except.ok ([], raw)
  | acc, c :: rest =>
    if c.isAlpha then getSchemeAux raw (c :: acc) rest
    else if c.isDigit || c == '+' || c == '-' || c == '.' then
      if acc.isEmpty then Except.ok ([], raw) else getSchemeAux raw (c :: acc) rest
    else if c == ':' then
      if acc.isEmpty then Except.error ("missing protocol scheme")
      else Except.ok (acc.reverse, rest)
    else Except.ok ([], raw)

/-- Go `getScheme`: returns (scheme, rest); an empty scheme means none. -/
def getScheme (raw : List Char) : Except String (List Char × List Char) :=
  getSchemeAux raw [] raw

/-- Go `validOptionalPort`: empty, or a colon followed by digits only. -/
def validOptionalPort : List Char → Bool
  | [] => true
  | ':' :: rest => rest.all fun c => c.isDigit
  | _ => false

/-- Hexadecimal digit test (Go `ishex`). -/
def isHexChar (c : Char) : Bool :=
  c.isDigit || (97 ≤ c.toNat && c.toNat ≤ 102) || (65 ≤ c.toNat && c.toNat ≤ 70)

/-- Hexadecimal digit value (Go `unhex`). -/
def unhex (c : Char) : Nat :=
  if c.isDigit then c.toNat - 48
  else if 97 ≤ c.toNat && c.toNat ≤ 102 then c.toNat - 87
  else if 65 ≤ c.toNat && c.toNat ≤ 70 then c.toNat - 55
  else 0

/-- Percent-escape validity (the only failure of Go `unescape` in path,
fragment and userinfo modes): every `%` must be followed by two hex
digits. -/
def validEscapes : List Char → Bool
  | [] => true
  | '%' :: h1 :: h2 :: rest => isHexChar h1 && isHexChar h2 && validEscapes rest
  | '%' :: _ => false
  | _ :: rest => validEscapes rest

/-- ASCII characters Go's `shouldEscape` allows unescaped in a host:
alphanumerics, the unreserved marks, the sub-delims, and `:[]<>"`
(39 is the apostrophe, 34 the double quote). -/
def hostAllowedChar (c : Char) : Bool :=
  c.isAlphanum || c == '-' || c == '.' || c == '_' || c == '~' || c == '!' ||
    c == '$' || c == '&' || c.toNat == 39 || c == '(' || c == ')' || c == '*' ||
    c == '+' || c == ',' || c == ';' || c == '=' || c == ':' || c == '[' ||
    c == ']' || c == '<' || c == '>' || c.toNat == 34

/-- Go `unescape` in `encodeHost` mode: percent escapes must be two hex
digits and must encode a byte ≥ 0x80 (except `%25`); ASCII characters must
be allowed host characters; other characters pass through. -/
def unescapeHost : List Char → Except String (List Char)
  | [] => Except.ok []
  | '%' :: h1 :: h2 :: rest =>
    if isHexChar h1 && isHexChar h2 then
      if unhex h1 < 8 && !(h1 == '2' && h2 == '5') then
        Except.error ("invalid URL escape in host")
      else
        match unescapeHost rest with
        | Except.error e => Except.error e
        | Except.ok out => Except.ok (Char.ofNat (16 * unhex h1 + unhex h2) :: out)
    else Except.error ("invalid URL escape")
  | '%' :: _ => Except.error ("invalid URL escape")
  | c :: rest =>
    if c.toNat < 128 && !(hostAllowedChar c) then
      Except.error ("invalid character in host name")
    else
      match unescapeHost rest with
      | Except.error e => Except.error e
      | Except.ok out => Except.ok (c :: out)

/-- Go `parseHost`: bracketed hosts need a closing bracket and a valid
optional port after it; otherwise the text after the last colon must be a
valid optional port; then host characters and escapes are checked. -/
def parseHost (host : List Char) : Except String (List Char) :=
  if ['['].isPrefixOf host then
    match lastIndexOfChar host ']' with
    | none => Except.error ("missing close bracket in host")
    | some i =>
      if !(validOptionalPort (host.drop (i + 1))) then
        Except.error ("invalid port after host")
      else unescapeHost host
  else
    match lastIndexOfChar host ':' with
    | some i =>
      if !(validOptionalPort (host.drop i)) then
        Except.error ("invalid port after host")
      else unescapeHost host
    | none => unescapeHost host

/-- Characters Go `validUserinfo` accepts (39 is the apostrophe). -/
def validUserinfoChar (c : Char) : Bool :=
  c.isAlphanum || c == '-' || c == '.' || c == '_' || c == ':' || c == '~' ||
    c == '!' || c == '$' || c == '&' || c.toNat == 39 || c == '(' || c == ')' ||
    c == '*' || c == '+' || c == ',' || c == ';' || c == '=' || c == '%' ||
    c == '@'

/-- Go `parseAuthority`: the host is everything after the last `@`; any
userinfo before it must pass `validUserinfo` and escape checking. -/
def parseAuthority (authority : List Char) : Except String (List Char) :=
  match lastIndexOfChar authority '@' with
  | none => parseHost authority
  | some i =>
    match parseHost (authority.drop (i + 1)) with
    | Except.error e => Except.error e
    | Except.ok host =>
      let userinfo := authority.take i
      if !(userinfo.all validUserinfoChar) then
        Except.error ("net/url: invalid userinfo")
      else if !(validEscapes userinfo) then
        Except.error ("invalid URL escape")
      else Except.ok host

/-- Go `parse` with `viaRequest = false`, after the fragment has been split
off.  Returns the `Scheme` and `Host` fields. -/
def parseInner (raw : List Char) : Except String GoURL :=
  if containsCTL raw then
    Except.error ("net/url: invalid control character in URL")
  else if raw == ['*'] then Except.ok { scheme := "", host := "" }
  else
    match getScheme raw with
    | Except.error e => Except.error e
    | Except.ok (schemeChars, rest0) =>
      let scheme := String.mk (schemeChars.map Char.toLower)
      let rest :=
        if rest0.getLast? == some '?' && !((rest0.dropLast).contains '?') then
          rest0.dropLast
        else (splitAtChar rest0 '?' true).1
      if !(['/'].isPrefixOf rest) && !(scheme == "") then
        Except.ok { scheme := scheme, host := "" }
      else if !(['/'].isPrefixOf rest) && (splitAtChar rest '/' true).1.contains ':' then
        Except.error ("first path segment in URL cannot contain colon")
      else if (!(scheme == "") || !(['/', '/', '/'].isPrefixOf rest)) &&
          ['/', '/'].isPrefixOf rest then
        let authority := (splitAtChar (rest.drop 2) '/' false).1
        let rest2 := (splitAtChar (rest.drop 2) '/' false).2
        match parseAuthority authority with
        | Except.error e => Except.error e
        | Except.ok host =>
          if validEscapes rest2 then Except.ok { scheme := scheme, host := String.mk host }
          else Except.error ("invalid URL escape")
      else
        if validEscapes rest then Except.ok { scheme := scheme, host := "" }
        else Except.error ("invalid URL escape")

/-- Go `%q`, simplified to surrounding double quotes. -/
def quoteStr (s : String) : String := "\"" ++ s ++ "\""

/-- Go `url.Parse`: split off the fragment, parse the rest, validate the
fragment's escapes; errors are wrapped as `parse "url": msg`. -/
def urlParse (rawURL : String) : Except String GoURL :=
  let pieces := splitAtChar rawURL.data '#' true
  match parseInner pieces.1 with
  | Except.error e =>
    Except.error ("parse " ++ quoteStr (String.mk pieces.1) ++ ": " ++ e)
  | Except.ok url =>
    if pieces.2.isEmpty then Except.ok url
    else if validEscapes pieces.2 then Except.ok url
    else Except.error ("parse " ++ quoteStr rawURL ++ ": invalid URL escape")

/- ## The tracer package itself -/

/-- `InitTracer` (tracer.go lines 43–119), with the otel globals and the
caller's `Config` threaded explicitly: returns the function result, the
final global state, and the final contents of the caller's `Config`
(the Go code writes `cfg.Creds = nil` through the pointer when the scheme
is `http`). -/
def InitTracer (env : Env) (g : GlobalState) (cfg : Config) :
    Except String otelTracer × GlobalState × Config :=
  if cfg.ExporterURL == "" then
    (Except.error ("endpoint is missing in the otlp tracer configuration"), g, cfg)
  else if cfg.ServiceName == "" then
    (Except.error ("service name is missing in the otlp tracer configuration"), g, cfg)
  else
    match urlParse cfg.ExporterURL with
    | Except.error e => (Except.error ("invalid exporter URL: " ++ e), g, cfg)
    | Except.ok u =>
      let endpoint := u.host
      let cfg := if u.scheme == "http" then { cfg with Creds := none } else cfg
      let secureOption : SecurityMode :=
        match cfg.Creds with
        | some c => SecurityMode.tls c
        | none => SecurityMode.insecure
      let client : OTLPClient :=
        { endpoint := endpoint
          security := secureOption
          headers := [("Authorization", "Bearer " ++ cfg.SecretToken)] }
      match env.exporterErr client with
      | some e => (Except.error ("failed to create otlp exporter: " ++ e), g, cfg)
      | none =>
        let exporter := client
        let res : Resource :=
          [("service.name", cfg.ServiceName),
           ("service.version", cfg.ServiceVersion),
           ("deployment.environment", cfg.DeploymentEnvironment),
           ("telemetry.sdk.language", "go")]
        match env.resourceErr res with
        | some e => (Except.error ("failed to create otlp resource: " ++ e), g, cfg)
        | none =>
          let sampler : Sampler :=
            match cfg.Sampler with
            | some s => s
            | none => AlwaysSample
          let tp : SDKTracerProvider :=
            { sampler := sampler, batcher := exporter, resource := res }
          let g := { g with tracerProvider := TracerProvider.sdk tp }
          let g := { g with textMapPropagator := TextMapPropagator.composite [TextMapPropagator.traceContext, TextMapPropagator.baggage] }
          (Except.ok
            { tracer := some
                { provider := g.tracerProvider, name := cfg.ServiceName ++ "-tracer" }
              tracerProvider := some (TracerProvider.sdk tp) },
           g, cfg)

/-- `InitNoopTracer` (tracer.go lines 121–129): installs the no-op provider
globally (the propagator slot is not touched) and returns a handle over a
tracer named "noop-tracer"; the error result is always nil. -/
def InitNoopTracer (g : GlobalState) : Except String otelTracer × GlobalState :=
  let g := { g with tracerProvider := TracerProvider.noop }
  (Except.ok
    { tracer := some { provider := g.tracerProvider, name := "noop-tracer" }
      tracerProvider := some TracerProvider.noop },
   g)

/-- The `Tracer()` accessor (tracer.go lines 131–137). -/
def otelTracer.Tracer (t : otelTracer) : Option NamedTracer :=
  match t.tracer with
  | some tr => some tr
  | none => none

/-- The `TracerProvider()` accessor (tracer.go lines 139–145). -/
def otelTracer.TracerProvider (t : otelTracer) : Option TracerProvider :=
  match t.tracerProvider with
  | some tp => some tp
  | none => none

/-- `Shutdown` (tracer.go lines 147–155): the type assertion
`t.tracerProvider.(*sdkTrace.TracerProvider)` succeeds only for the SDK
provider; its shutdown failure (from the oracle) is wrapped, every other
provider (no-op, nil, other) yields nil. -/
def otelTracer.Shutdown (env : Env) (t : otelTracer) : Except String Unit :=
  match t.tracerProvider with
  | some (TracerProvider.sdk tp) =>
    match env.sdkShutdown tp with
    | some e => Except.error ("failed to shutdown tracer provider: " ++ e)
    | none => Except.ok ()
  | _ => Except.ok ()

/-- Outcome of running a Go function that may panic. -/
inductive GoResult (α : Type) where
  | ret (a : α)
  | crash (msg : String)

/-- `InitTracer` at the Go pointer level: `cfg *Config` is an
`Option Config`, and the body's very first statement (`cfg.ExporterURL`)
dereferences it, so a nil pointer panics before any validation. -/
def InitTracerPtr (env : Env) (g : GlobalState) (cfg : Option Config) :
    GoResult (Except String otelTracer × GlobalState × Config) :=
  match cfg with
  | none => GoResult.crash ("runtime error: invalid memory address or nil pointer dereference")
  | some c => GoResult.ret (InitTracer env g c)

/- ## Concrete fixtures used by witnesses and counterexamples -/

/-- An environment in which every external collaborator succeeds. -/
def envOK : Env :=
  { exporterErr := fun _ => none
    resourceErr := fun _ => none
    sdkShutdown := fun _ => none }

/-- An environment in which SDK provider shutdown fails with "boom". -/
def envShutdownFail : Env :=
  { envOK with sdkShutdown := fun _ => some "boom" }

/-- An arbitrary prior global state. -/
def g0 : GlobalState :=
  { tracerProvider := TracerProvider.other 0
    textMapPropagator := TextMapPropagator.other 0 }

/-- Some concrete credential material. -/
def cred0 : TransportCredentials := { id := 0 }

/-- The spec scenario config with an insecure scheme and credentials. -/
def cfgHttp : Config :=
  { ExporterURL := "http://localhost:4317", ServiceName := "x", Creds := some cred0 }

/-- The spec scenario config with a secure scheme. -/
def cfgHttps : Config :=
  { ExporterURL := "https://collector.example:4317", ServiceName := "orders" }

/-- The spec scenario config whose endpoint is not a URL. -/
def cfgNotAUrl : Config := { ExporterURL := "not a url" }

/-- The provider `InitTracer` builds from `cfgHttp` in `envOK`. -/
def tpHttp : SDKTracerProvider :=
  { sampler := AlwaysSample
    batcher :=
      { endpoint := "localhost:4317"
        security := SecurityMode.insecure
        headers := [("Authorization", "Bearer ")] }
    resource :=
      [("service.name", "x"), ("service.version", ""),
       ("deployment.environment", ""), ("telemetry.sdk.language", "go")] }

/-- The handle `InitTracer` returns from `cfgHttp` in `envOK`. -/
def tHttp : otelTracer :=
  { tracer := some { provider := TracerProvider.sdk tpHttp, name := "x-tracer" }
    tracerProvider := some (TracerProvider.sdk tpHttp) }

/-- The provider `InitTracer` builds from `cfgHttps` in `envOK`. -/
def tpHttps : SDKTracerProvider :=
  { sampler := AlwaysSample
    batcher :=
      { endpoint := "collector.example:4317"
        security := SecurityMode.insecure
        headers := [("Authorization", "Bearer ")] }
    resource :=
      [("service.name", "orders"), ("service.version", ""),
       ("deployment.environment", ""), ("telemetry.sdk.language", "go")] }

/-- The handle `InitTracer` returns from `cfgHttps` in `envOK`. -/
def tHttps : otelTracer :=
  { tracer := some { provider := TracerProvider.sdk tpHttps, name := "orders-tracer" }
    tracerProvider := some (TracerProvider.sdk tpHttps) }

/-- The handle `InitNoopTracer` returns. -/
def tNoop : otelTracer :=
  { tracer := some { provider := TracerProvider.noop, name := "noop-tracer" }
    tracerProvider := some TracerProvider.noop }

/-- The SDK tracer provider, if any, held by a handle. -/
def handleSDK (t : otelTracer) : Option SDKTracerProvider :=
  match t.tracerProvider with
  | some (TracerProvider.sdk tp) => some tp
  | _ => none

/- ## Case analysis of InitTracer -/

/-- Complete case analysis of `InitTracer`: either it fails, leaving the
global state exactly as it was and the config either untouched or with only
`Creds` discarded (when the scheme parsed as `http`); or the endpoint URL
parses, and the result, the installed globals and the final config are the
ones built from the parsed URL and the (possibly credential-stripped)
config. -/
theorem initTracer_cases (env : Env) (g : GlobalState) (cfg : Config) :
    (∃ e cfg2, InitTracer env g cfg = (Except.error e, g, cfg2) ∧
      (cfg2 = cfg ∨ ∃ u, urlParse cfg.ExporterURL = Except.ok u ∧ u.scheme = "http" ∧
        cfg2 = { cfg with Creds := none })) ∨
    (∃ u tp,
      urlParse cfg.ExporterURL = Except.ok u ∧
      tp = { sampler := match cfg.Sampler with | some s => s | none => AlwaysSample
             batcher := { endpoint := u.host
                          security := match (if u.scheme == "http" then none else cfg.Creds) with
                                      | some c => SecurityMode.tls c
                                      | none => SecurityMode.insecure
                          headers := [("Authorization", "Bearer " ++ cfg.SecretToken)] }
             resource := [("service.name", cfg.ServiceName),
                          ("service.version", cfg.ServiceVersion),
                          ("deployment.environment", cfg.DeploymentEnvironment),
                          ("telemetry.sdk.language", "go")] } ∧
      InitTracer env g cfg =
        (Except.ok { tracer := some { provider := TracerProvider.sdk tp,
                                      name := cfg.ServiceName ++ "-tracer" }
                     tracerProvider := some (TracerProvider.sdk tp) },
         { tracerProvider := TracerProvider.sdk tp
           textMapPropagator := TextMapPropagator.composite [TextMapPropagator.traceContext, TextMapPropagator.baggage] },
         if u.scheme == "http" then { cfg with Creds := none } else cfg)) := by
  unfold InitTracer
  split
  · exact Or.inl ⟨_, _, rfl, Or.inl rfl⟩
  split
  · exact Or.inl ⟨_, _, rfl, Or.inl rfl⟩
  split
  next e heq => exact Or.inl ⟨_, _, rfl, Or.inl rfl⟩
  next u heq =>
    by_cases hhttp : (u.scheme == "http") = true
    · simp only [hhttp, if_true]
      split
      next e hex => exact Or.inl ⟨_, _, rfl, Or.inr ⟨u, heq, eq_of_beq hhttp, rfl⟩⟩
      next hex =>
        split
        next e hres => exact Or.inl ⟨_, _, rfl, Or.inr ⟨u, heq, eq_of_beq hhttp, rfl⟩⟩
        next hres => exact Or.inr ⟨u, _, heq, rfl, by simp [hhttp]⟩
    · rw [Bool.not_eq_true] at hhttp
      simp only [hhttp, if_false]
      split
      next e hex => exact Or.inl ⟨_, _, rfl, Or.inl rfl⟩
      next hex =>
        split
        next e hres => exact Or.inl ⟨_, _, rfl, Or.inl rfl⟩
        next hres => exact Or.inr ⟨u, _, heq, rfl, by simp [hhttp]⟩

/- ## Claims -/

/-- Claim C1: for every configuration on which InitTracer returns an error
(empty endpoint, empty service name, URL parse failure, exporter
construction failure, or resource construction failure), the process-wide
tracer-provider slot and propagation-policy slot retain the values they
held before the call; they are written only on the success path. -/
theorem C1_error_leaves_globals_unchanged (env : Env) (g : GlobalState) (cfg : Config)
    (e : String) (h : (InitTracer env g cfg).1 = Except.error e) :
    (InitTracer env g cfg).2.1 = g := by
  rcases initTracer_cases env g cfg with ⟨e2, cfg2, heq, _⟩ | ⟨u, tp, _, _, heq⟩
  · rw [heq]
  · rw [heq] at h
    simp at h

/-- Witness for C1 at the empty configuration (missing endpoint error). -/
theorem C1_witness : (InitTracer envOK g0 ({} : Config)).2.1 = g0 :=
  C1_error_leaves_globals_unchanged envOK g0 {}
    ("endpoint is missing in the otlp tracer configuration") rfl

/-- Claim C2: for every configuration whose endpoint scheme is insecure
(`http`), InitTracer builds the export transport in explicit insecure mode,
even when non-nil transport credentials were supplied. -/
theorem C2_insecure_scheme_no_transport_security (env : Env) (g : GlobalState)
    (cfg : Config) (u : GoURL) (t : otelTracer)
    (hu : urlParse cfg.ExporterURL = Except.ok u) (hs : u.scheme = "http")
    (h : (InitTracer env g cfg).1 = Except.ok t) :
    (handleSDK t).map (fun tp => tp.batcher.security) = some SecurityMode.insecure := by
  rcases initTracer_cases env g cfg with ⟨e2, cfg2, heq, _⟩ | ⟨u2, tp, hu2, htp, heq⟩
  · rw [heq] at h
    simp at h
  · rw [hu] at hu2
    injection hu2 with hu2
    subst hu2
    rw [heq] at h
    simp only [Prod.fst] at h
    injection h with h
    subst h
    simp [handleSDK, htp, hs]

/-- Witness for C2 at the spec scenario: ExporterURL "http://localhost:4317",
ServiceName "x", non-nil Creds. -/
theorem C2_witness :
    (handleSDK tHttp).map (fun tp => tp.batcher.security) = some SecurityMode.insecure :=
  C2_insecure_scheme_no_transport_security envOK g0 cfgHttp
    { scheme := "http", host := "localhost:4317" } tHttp rfl rfl rfl

/-- Claim C3: for every accepted configuration the pipeline's sampling
policy is the supplied sampler when present and the always-sample policy
when absent; the always-sample policy samples every span (none is dropped
at the sampling stage). -/
theorem C3_sampling_policy_selection (env : Env) (g : GlobalState) (cfg : Config)
    (t : otelTracer) (n : Nat) (h : (InitTracer env g cfg).1 = Except.ok t) :
    (handleSDK t).map SDKTracerProvider.sampler = some (cfg.Sampler.getD AlwaysSample) ∧
    AlwaysSample.shouldSample n = true := by
  refine ⟨?_, rfl⟩
  rcases initTracer_cases env g cfg with ⟨e2, cfg2, heq, _⟩ | ⟨u2, tp, hu2, htp, heq⟩
  · rw [heq] at h
    simp at h
  · rw [heq] at h
    simp only [Prod.fst] at h
    injection h with h
    subst h
    cases hS : cfg.Sampler <;> simp [handleSDK, htp, hS]

/-- Witness for C3 at a sampler-less configuration (default policy). -/
theorem C3_witness :
    (handleSDK tHttps).map SDKTracerProvider.sampler = some AlwaysSample ∧
    AlwaysSample.shouldSample 7 = true :=
  C3_sampling_policy_selection envOK g0 cfgHttps tHttps 7 rfl

/-- Claim C4, counterexample: for Configuration with ExporterURL "not a url"
and all other fields at their zero values, InitTracer does fail and leaves
the globals unchanged, but the error is the missing-service-name
configuration error, not a malformed-URL error (every malformed-URL error
message of the code begins with "invalid exporter URL"). -/
theorem C4_counterexample :
    (InitTracer envOK g0 cfgNotAUrl).1 =
      Except.error ("service name is missing in the otlp tracer configuration") ∧
    ("invalid exporter URL").data.isPrefixOf
      ("service name is missing in the otlp tracer configuration").data = false ∧
    (InitTracer envOK g0 cfgNotAUrl).2.1 = g0 :=
  ⟨rfl, by decide, rfl⟩

/-- Claim C4 as amended: for Configuration{ExporterURL: "not a url"} (all
other fields zero), InitTracer fails with the missing-service-name
configuration error — the service-name check precedes URL parsing — and the
process-wide tracer state is unchanged from its prior value. -/
theorem C4_amended_missing_service_name (env : Env) (g : GlobalState) :
    (InitTracer env g cfgNotAUrl).1 =
      Except.error ("service name is missing in the otlp tracer configuration") ∧
    (InitTracer env g cfgNotAUrl).2.1 = g :=
  ⟨rfl, rfl⟩

/-- Claim C5, counterexample: the spec scenario config (scheme `http`,
non-nil Creds) passes validation, yet after InitTracer the caller's Config
has Creds overwritten to nil — the Config is not left unmodified. -/
theorem C5_counterexample :
    ((InitTracer envOK g0 cfgHttp).2.2).Creds = none ∧ cfgHttp.Creds = some cred0 ∧
    (InitTracer envOK g0 cfgHttp).2.2 ≠ cfgHttp :=
  ⟨rfl, rfl, fun h => absurd (congrArg Config.Creds h) (by decide)⟩

/-- Claim C5 as amended: InitTracer leaves every field of the caller's
Config other than Creds unchanged; Creds is either unchanged or — exactly
when the endpoint URL parses with scheme `http` — overwritten to nil
through the caller's pointer. -/
theorem C5_amended_only_creds_discarded (env : Env) (g : GlobalState) (cfg : Config) :
    ((InitTracer env g cfg).2.2).ExporterURL = cfg.ExporterURL ∧
    ((InitTracer env g cfg).2.2).SecretToken = cfg.SecretToken ∧
    ((InitTracer env g cfg).2.2).ServiceName = cfg.ServiceName ∧
    ((InitTracer env g cfg).2.2).ServiceVersion = cfg.ServiceVersion ∧
    ((InitTracer env g cfg).2.2).DeploymentEnvironment = cfg.DeploymentEnvironment ∧
    ((InitTracer env g cfg).2.2).Sampler = cfg.Sampler ∧
    (((InitTracer env g cfg).2.2).Creds = cfg.Creds ∨
      (((InitTracer env g cfg).2.2).Creds = none ∧
        ∃ u, urlParse cfg.ExporterURL = Except.ok u ∧ u.scheme = "http")) := by
  rcases initTracer_cases env g cfg with ⟨e2, cfg2, heq, hc⟩ | ⟨u, tp, hu, htp, heq⟩
  · rw [heq]
    rcases hc with rfl | ⟨u, hu, hs, rfl⟩
    · exact ⟨rfl, rfl, rfl, rfl, rfl, rfl, Or.inl rfl⟩
    · exact ⟨rfl, rfl, rfl, rfl, rfl, rfl, Or.inr ⟨rfl, u, hu, hs⟩⟩
  · rw [heq]
    by_cases hs : (u.scheme == "http") = true
    · refine ⟨?_, ?_, ?_, ?_, ?_, ?_, Or.inr ⟨?_, u, hu, eq_of_beq hs⟩⟩ <;> simp [hs]
    · rw [Bool.not_eq_true] at hs
      refine ⟨?_, ?_, ?_, ?_, ?_, ?_, Or.inl ?_⟩ <;> simp [hs]

/-- Claim C6: for every accepted configuration the export transport carries
the fixed authorization header "Bearer " concatenated with the configured
secret token (the header is built even for an empty token). -/
theorem C6_bearer_authorization_header (env : Env) (g : GlobalState) (cfg : Config)
    (t : otelTracer) (h : (InitTracer env g cfg).1 = Except.ok t) :
    (handleSDK t).map (fun tp => tp.batcher.headers) =
      some [("Authorization", "Bearer " ++ cfg.SecretToken)] := by
  rcases initTracer_cases env g cfg with ⟨e2, cfg2, heq, _⟩ | ⟨u2, tp, hu2, htp, heq⟩
  · rw [heq] at h
    simp at h
  · rw [heq] at h
    simp only [Prod.fst] at h
    injection h with h
    subst h
    simp [handleSDK, htp]

/-- Witness for C6 at a configuration with the empty secret token: the
header value is the bare "Bearer ". -/
theorem C6_witness :
    (handleSDK tHttps).map (fun tp => tp.batcher.headers) =
      some [("Authorization", "Bearer ")] :=
  C6_bearer_authorization_header envOK g0 cfgHttps tHttps rfl

/-- Claim C7: for every accepted configuration the returned handle's tracer
comes from the just-installed provider under the name serviceName ++
"-tracer"; and InitNoopTracer always succeeds with a tracer named
"noop-tracer" over the no-op provider. -/
theorem C7_named_tracers (env : Env) (g g2 : GlobalState) (cfg : Config)
    (t : otelTracer) (h : (InitTracer env g cfg).1 = Except.ok t) :
    t.tracer = some { provider := (InitTracer env g cfg).2.1.tracerProvider,
                      name := cfg.ServiceName ++ "-tracer" } ∧
    (InitNoopTracer g2).1 =
      Except.ok { tracer := some { provider := TracerProvider.noop, name := "noop-tracer" }
                  tracerProvider := some TracerProvider.noop } := by
  refine ⟨?_, rfl⟩
  rcases initTracer_cases env g cfg with ⟨e2, cfg2, heq, _⟩ | ⟨u2, tp, hu2, htp, heq⟩
  · rw [heq] at h
    simp at h
  · rw [heq] at h ⊢
    simp only [Prod.fst] at h
    injection h with h
    subst h
    rfl

/-- Witness for C7 at the https scenario configuration. -/
theorem C7_witness :
    tHttps.tracer = some { provider := TracerProvider.sdk tpHttps, name := "orders-tracer" } ∧
    (InitNoopTracer g0).1 =
      Except.ok { tracer := some { provider := TracerProvider.noop, name := "noop-tracer" }
                  tracerProvider := some TracerProvider.noop } :=
  C7_named_tracers envOK g0 g0 cfgHttps tHttps rfl

/-- Claim C8: for every accepted configuration the propagation policy
installed on success is the composite of exactly trace-context propagation
first and baggage propagation second. -/
theorem C8_composite_propagator_installed (env : Env) (g : GlobalState) (cfg : Config)
    (t : otelTracer) (h : (InitTracer env g cfg).1 = Except.ok t) :
    (InitTracer env g cfg).2.1.textMapPropagator =
      TextMapPropagator.composite [TextMapPropagator.traceContext, TextMapPropagator.baggage] := by
  rcases initTracer_cases env g cfg with ⟨e2, cfg2, heq, _⟩ | ⟨u2, tp, hu2, htp, heq⟩
  · rw [heq] at h
    simp at h
  · rw [heq]

/-- Witness for C8 at the https scenario configuration. -/
theorem C8_witness :
    (InitTracer envOK g0 cfgHttps).2.1.textMapPropagator =
      TextMapPropagator.composite [TextMapPropagator.traceContext, TextMapPropagator.baggage] :=
  C8_composite_propagator_installed envOK g0 cfgHttps tHttps rfl

/-- Claim C9: Shutdown on a handle holding the no-op provider always
returns success; on a handle holding the SDK provider whose underlying
shutdown fails, Shutdown returns that failure wrapped with the
shutdown-step context (both as total, non-panicking functions). -/
theorem C9_shutdown_noop_and_sdk_failure (env : Env) (tr tr2 : Option NamedTracer)
    (tp : SDKTracerProvider) (e : String) (h : env.sdkShutdown tp = some e) :
    otelTracer.Shutdown env { tracer := tr, tracerProvider := some TracerProvider.noop } =
      Except.ok () ∧
    otelTracer.Shutdown env { tracer := tr2, tracerProvider := some (TracerProvider.sdk tp) } =
      Except.error ("failed to shutdown tracer provider: " ++ e) := by
  constructor
  · rfl
  · simp [otelTracer.Shutdown, h]

/-- Witness for C9: the no-op handle from InitNoopTracer shuts down cleanly
even in an environment whose SDK shutdown fails, and the SDK handle from
the http scenario reports the wrapped failure. -/
theorem C9_witness :
    otelTracer.Shutdown envShutdownFail tNoop = Except.ok () ∧
    otelTracer.Shutdown envShutdownFail tHttp =
      Except.error ("failed to shutdown tracer provider: boom") :=
  C9_shutdown_noop_and_sdk_failure envShutdownFail tNoop.tracer tHttp.tracer tpHttp
    "boom" rfl

/-- Claim C10: InitTracer dereferences its Config pointer before any
validation, so a nil Config panics rather than returning a configuration
error, while every non-nil Config returns normally. -/
theorem C10_nil_config_panics (env : Env) (g : GlobalState) (cfg : Config) :
    InitTracerPtr env g none =
      GoResult.crash ("runtime error: invalid memory address or nil pointer dereference") ∧
    InitTracerPtr env g (some cfg) = GoResult.ret (InitTracer env g cfg) :=
  ⟨rfl, rfl⟩
